import Mathlib

/-!
Shallow embedding of the command/response bridge subsystem of
`docs/examples/cdp-e2e-test.py` (with the variant `send_key` of
`docs/examples/cdp-send-sequence.py` as corroborating source):

* the Flask bridge server handlers `get_command` and `post_response`
  over the module-level `command_queue` (a Python list) and
  `response_dict` (a Python dict);
* the `ExtensionBridge` client (`send_command` with its uuid id, enqueue
  and polling wait loop, and the decoding step of `get_active_tab`);
* the `CDPClient` automation-channel client (`send_command` with its
  sequential ids over a websocket, `send_key`, `close`);
* the orchestrating `run_test`.

Python lists become Lean lists, the Python dict becomes a partial map
`String → Option CmdResult`, wall time in the polling loop is counted in
ticks of the `time.sleep(0.1)` interval, and the websocket is a pair of
frame streams (frames already sent, frames waiting to be received).
-/

namespace CdpE2E

/-- A bridge Command as built by `ExtensionBridge.send_command`:
`{'id': cmd_id, 'command': command, 'params': params or {}}`. -/
structure Command where
  id : String
  command : String
  params : List (String × String)
deriving Repr, DecidableEq

/-- The payload stored by `post_response` under `data['id']`, namely
`data['result']`: the executor's `{success, data, error}` object
(`data` and `error` may be absent; `get_active_tab` reads `data` with
`response['data']` and `error` with `response.get('error', ...)`). -/
structure CmdResult where
  success : Bool
  data : String
  error : Option String
deriving Repr, DecidableEq

/-- The `response_dict` module-level Python dict, as a partial map. -/
abbrev RespTable := String → Option CmdResult

/-- The empty `response_dict`. -/
def emptyTable : RespTable := fun _ => none

/-- Handler `get_command` (`@app.route('/get_command')`):
`if command_queue: cmd = command_queue.pop(0); return jsonify(cmd)`
`return jsonify(None)` — returns the claimed command (or the `None`
sentinel) together with the queue left behind. -/
def get_command (command_queue : List Command) : Option Command × List Command :=
  match command_queue with
  | [] => (none, [])
  | cmd :: rest => (some cmd, rest)

/-- The body posted to `/post_response`: `{'id': ..., 'result': ...}`. -/
structure PostData where
  id : String
  result : CmdResult
deriving Repr, DecidableEq

/-- The JSON acknowledgment `{'status': 'ok'}` returned by `post_response`. -/
structure Ack where
  status : String
deriving Repr, DecidableEq

/-- Handler `post_response` (`@app.route('/post_response')`):
`response_dict[data['id']] = data['result']; return jsonify({'status': 'ok'})`.
It reads only `response_dict`, never `command_queue`. -/
def post_response (response_dict : RespTable) (data : PostData) : RespTable × Ack :=
  (fun k => if k = data.id then some data.result else response_dict k, ⟨"ok"⟩)

/-- Python `response_dict.pop(cmd_id)` on a key known to be present:
return the stored value and the table without that key. -/
def dictPop (response_dict : RespTable) (k : String) :
    Option CmdResult × RespTable :=
  (response_dict k, fun j => if j = k then none else response_dict j)

/-- Enqueueing in `ExtensionBridge.send_command`:
`command_queue.append(command_obj)`. -/
def enqueue (command_queue : List Command) (cmd : Command) : List Command :=
  command_queue ++ [cmd]

/-- Repeated claiming: `n` successive calls of `get_command`, returning
the list of answers (each `some` a claimed command or `none` the
sentinel) and the queue left after them. -/
def claimSeq (command_queue : List Command) : Nat → List (Option Command) × List Command
  | 0 => ([], command_queue)
  | n + 1 =>
    let (c, rest) := get_command command_queue
    let (cs, final) := claimSeq rest n
    (c :: cs, final)

/-- Outcome of the wait loop in `ExtensionBridge.send_command`: either a
response found in `response_dict` after `tick` sleeps, or the
`TimeoutError` raised after `tick` sleeps. -/
inductive WaitOutcome where
  | found (r : CmdResult) (tick : Nat)
  | timeoutErr (msg : String) (tick : Nat)
deriving Repr, DecidableEq

/-- The polling loop of `ExtensionBridge.send_command`:

`while cmd_id not in response_dict:`
`  if time.time() - start_time > timeout: raise TimeoutError(...)`
`  time.sleep(0.1)`
`response = response_dict.pop(cmd_id)`

Wall time is counted in ticks of the 0.1-second sleep: `tableAt n` is
`response_dict` as the loop observes it after `n` sleeps, `timeout` is
the deadline in the same unit, and after `n` sleeps the elapsed time
`time.time() - start_time` is `n` ticks.  The loop exits with the found
response, or raises once elapsed time strictly exceeds `timeout`. -/
def waitFrom (tableAt : Nat → RespTable) (cmd_id command : String)
    (timeout : Nat) (n : Nat) : WaitOutcome :=
  match tableAt n cmd_id with
  | some r => .found r n
  | none =>
    if h : n > timeout then
      .timeoutErr ("Extension did not respond to " ++ command) n
    else
      waitFrom tableAt cmd_id command timeout (n + 1)
termination_by timeout + 1 - n
decreasing_by omega

/-- What one call of `ExtensionBridge.send_command` does: the id it
drew, the queue after its `command_queue.append`, and how its wait
loop ended. -/
structure SendResult where
  cmd_id : String
  queueAfter : List Command
  outcome : WaitOutcome
deriving Repr, DecidableEq

/-- `ExtensionBridge.send_command(command, params, timeout)`.
`cmd_id = str(uuid.uuid4())` is modelled by drawing token number
`callIdx` from an external token stream `uuids` (the `callIdx`-th call
of the process draws `uuids callIdx`); the command object is built,
appended to `command_queue`, and the polling loop is entered. -/
def ExtensionBridge.send_command (uuids : Nat → String) (callIdx : Nat)
    (command_queue : List Command) (tableAt : Nat → RespTable)
    (command : String) (params : List (String × String)) (timeout : Nat) :
    SendResult :=
  let cmd_id := uuids callIdx
  let command_obj : Command := ⟨cmd_id, command, params⟩
  { cmd_id := cmd_id
    queueAfter := enqueue command_queue command_obj
    outcome := waitFrom tableAt cmd_id command timeout 0 }

/-- The decoding step of `ExtensionBridge.get_active_tab` applied to the
response popped by `send_command`:
`if response.get('success'): return response['data']`
`else: raise Exception(response.get('error', 'Unknown error'))`. -/
def ExtensionBridge.get_active_tab (response : CmdResult) : Except String String :=
  if response.success then .ok response.data
  else .error (response.error.getD "Unknown error")

/-- Parameters of a CDP `Input.dispatchKeyEvent` request as built by
`CDPClient.send_key`: the Python dict holds `type` and `key` always,
`text` only for the char event, and `code` /
`windowsVirtualKeyCode` / `nativeVirtualKeyCode` only when the
corresponding argument was supplied (`none` = key absent). -/
structure KeyParams where
  type : String
  key : String
  text : Option String := none
  code : Option String := none
  windowsVirtualKeyCode : Option Nat := none
  nativeVirtualKeyCode : Option Nat := none
deriving Repr, DecidableEq

/-- A CDP request frame `{"id": ..., "method": ..., "params": ...}`. -/
structure CdpFrame where
  id : Nat
  method : String
  params : KeyParams
deriving Repr, DecidableEq

/-- A CDP reply frame as read by `ws.recv()`: its `id` field and the
rest of its payload. -/
structure CdpReply where
  id : Nat
  result : String
deriving Repr, DecidableEq

/-- The `CDPClient` together with its websocket connection: `cmd_id` is
the id counter (`self.cmd_id = 0` at `__init__`), `sent` the frames
written to the socket so far (in order), `incoming` the frames the
socket will deliver to successive `ws.recv()` calls, and `closeCount`
how often `ws.close()` has run. -/
structure CDPClient where
  cmd_id : Nat
  sent : List CdpFrame
  incoming : List CdpReply
  closeCount : Nat := 0
deriving Repr, DecidableEq

/-- `CDPClient.send_command(method, params)`:
`self.cmd_id += 1`, send `{"id": self.cmd_id, "method": method,
"params": params}`, then `response = json.loads(self.ws.recv())` and
`return response`.  `ws.recv` takes the next incoming frame, whatever
its id — the code never compares the reply id with `self.cmd_id`.
`none` models a `recv` that blocks forever (no frame ever arrives). -/
def CDPClient.send_command (c : CDPClient) (method : String) (params : KeyParams) :
    Option (CdpReply × CDPClient) :=
  let newId := c.cmd_id + 1
  let frame : CdpFrame := ⟨newId, method, params⟩
  match c.incoming with
  | [] => none
  | r :: rest =>
    some (r, { c with cmd_id := newId, sent := c.sent ++ [frame], incoming := rest })

/-- `CDPClient.send_key(key_name, text, code, key_code)`: keyDown, then
a char event only if `text` is supplied, then keyUp, each through
`self.send_command("Input.dispatchKeyEvent", params)`.  Returns the
client after the two or three calls (`none` if a `recv` blocked). -/
def CDPClient.send_key (c : CDPClient) (key_name : String) (text : Option String)
    (code : Option String) (key_code : Option Nat) : Option CDPClient :=
  let downParams : KeyParams :=
    { type := "keyDown", key := key_name, code := code,
      windowsVirtualKeyCode := key_code, nativeVirtualKeyCode := key_code }
  match c.send_command "Input.dispatchKeyEvent" downParams with
  | none => none
  | some (_, c1) =>
    let afterChar : Option CDPClient :=
      match text with
      | some t =>
        let charParams : KeyParams := { type := "char", key := key_name, text := some t }
        match c1.send_command "Input.dispatchKeyEvent" charParams with
        | none => none
        | some (_, c2) => some c2
      | none => some c1
    match afterChar with
    | none => none
    | some c2 =>
      let upParams : KeyParams :=
        { type := "keyUp", key := key_name, code := code,
          windowsVirtualKeyCode := key_code, nativeVirtualKeyCode := key_code }
      match c2.send_command "Input.dispatchKeyEvent" upParams with
      | none => none
      | some (_, c3) => some c3

/-- `CDPClient.close()`: `self.ws.close()`. -/
def CDPClient.close (c : CDPClient) : CDPClient :=
  { c with closeCount := c.closeCount + 1 }

/-- A browser tab as returned over the bridge (`before_tab` /
`after_tab` have at least `id` and `title`). -/
structure Tab where
  id : String
  title : String
deriving Repr, DecidableEq

/-- How `run_test` terminated. -/
inductive RunOutcome where
  /-- The Baseline query raised: the `except` branch prints a warning
  and executes a plain `return`. -/
  | earlyReturn (e : String)
  /-- The post-state query raised: the exception propagates out of
  `run_test` uncaught (caught only in `main`). -/
  | raised (e : String)
  /-- Both queries succeeded and the tab changed: "TEST PASSED". -/
  | passed
  /-- Both queries succeeded and the tab did not change: "TEST FAILED". -/
  | failed
deriving Repr, DecidableEq

/-- What a finished (or aborted) `run_test` leaves behind: its outcome
and how many times `cdp.close()` ran. -/
structure RunResult where
  outcome : RunOutcome
  closeCount : Nat
deriving Repr, DecidableEq

/-- The orchestrating `run_test`, abstracted over the two fallible
bridge queries (`Except.error` = the query raised).  The CDP
connection set-up, `Page.bringToFront` and the three `send_key` calls
are modelled as succeeding — the claims under study force failures
only in the Baseline and Verify queries.  Control flow follows the
source exactly:

* `before_tab = ExtensionBridge.get_active_tab()` sits in a
  `try/except` whose handler prints and then does `return` — reaching
  neither the action nor `cdp.close()`;
* `after_tab = ExtensionBridge.get_active_tab()` is not in any `try`,
  so an exception propagates out of `run_test` before `cdp.close()`;
* the verification comparison cannot raise, and `cdp.close()` runs
  once after it on the fall-through path.

There is no `try/finally` in `run_test`. -/
def run_test (baseline postState : Except String Tab) : RunResult :=
  match baseline with
  | .error e => { outcome := .earlyReturn e, closeCount := 0 }
  | .ok before_tab =>
    match postState with
    | .error e => { outcome := .raised e, closeCount := 0 }
    | .ok after_tab =>
      if before_tab.id ≠ after_tab.id then
        { outcome := .passed, closeCount := 1 }
      else
        { outcome := .failed, closeCount := 1 }

end CdpE2E

open CdpE2E

/-- Helper for C6: `n` successive `get_command` calls answer with the
first `n` enqueued commands (wrapped in `some`, padded with the `none`
sentinel once the queue is exhausted) and leave `q.drop n` behind. -/
theorem claimSeq_take_drop (n : Nat) : ∀ q : List Command,
    (claimSeq q n).1 = (q.take n).map some ++ List.replicate (n - q.length) none ∧
    (claimSeq q n).2 = q.drop n := by
  induction n with
  | zero => intro q; simp [claimSeq]
  | succ n ih =>
    intro q
    cases q with
    | nil =>
      have h := ih []
      simp [claimSeq, get_command, List.replicate_succ] at h ⊢
      exact h
    | cons c rest =>
      have h := ih rest
      simp [claimSeq, get_command, h.1, h.2, Nat.succ_sub_succ]

/-- Claim C5: `claim-next-command` never blocks: on a non-empty queue it
removes and returns the head command, and on an empty queue it returns
the `None` sentinel and leaves the queue empty. -/
theorem C5_claim_next_command (q : List Command) :
    (q = [] → get_command q = (none, [])) ∧
    (∀ c rest, q = c :: rest → get_command q = (some c, rest)) := by
  constructor
  · rintro rfl; rfl
  · rintro c rest rfl; rfl

/-- Witness for C5 at a one-element queue and at the empty queue. -/
theorem C5_claim_next_command_witness :
    get_command [⟨"id-1", "get_active_tab", []⟩] =
      (some ⟨"id-1", "get_active_tab", []⟩, []) ∧
    get_command [] = (none, []) :=
  ⟨(C5_claim_next_command [⟨"id-1", "get_active_tab", []⟩]).2
      ⟨"id-1", "get_active_tab", []⟩ [] rfl,
    (C5_claim_next_command []).1 rfl⟩

/-- Claim C6: the pending queue is strict FIFO and delivery is
at-most-once: over any `n` successive `claim-next-command` calls, the
commands actually claimed are exactly the first `n` enqueued, in
enqueue order; they are removed (the queue left is `q.drop n`); and if
the enqueued commands are pairwise distinct, no command is ever
returned by two claims. -/
theorem C6_fifo_at_most_once (q : List Command) (n : Nat) :
    (claimSeq q n).1.filterMap id = q.take n ∧
    (claimSeq q n).2 = q.drop n ∧
    (q.Nodup → ((claimSeq q n).1.filterMap id).Nodup) := by
  obtain ⟨h1, h2⟩ := claimSeq_take_drop n q
  have hfm : (claimSeq q n).1.filterMap id = q.take n := by
    rw [h1, List.filterMap_append, List.filterMap_map]
    simp
  refine ⟨hfm, h2, fun hnd => ?_⟩
  rw [hfm]
  exact hnd.sublist (List.take_sublist n q)

/-- Witness for C6: two distinct commands, three polls — both commands
are claimed once each, in order, and the queue is emptied. -/
theorem C6_fifo_at_most_once_witness :
    (claimSeq [⟨"a", "x", []⟩, ⟨"b", "y", []⟩] 3).1.filterMap id =
      [⟨"a", "x", []⟩, ⟨"b", "y", []⟩] ∧
    (claimSeq [⟨"a", "x", []⟩, ⟨"b", "y", []⟩] 3).2 = [] ∧
    ((claimSeq [⟨"a", "x", []⟩, ⟨"b", "y", []⟩] 3).1.filterMap id).Nodup :=
  ⟨(C6_fifo_at_most_once [⟨"a", "x", []⟩, ⟨"b", "y", []⟩] 3).1,
    (C6_fifo_at_most_once [⟨"a", "x", []⟩, ⟨"b", "y", []⟩] 3).2.1,
    (C6_fifo_at_most_once [⟨"a", "x", []⟩, ⟨"b", "y", []⟩] 3).2.2 (by decide)⟩

/-- Claim C7: a found Result is consumed exactly once — `pop` returns it
and removes it (a second lookup finds nothing, other entries are
untouched) — and the caller-facing decode returns `data` when
`success` is true and fails carrying the executor's error text when
`success` is false. -/
theorem C7_single_consumption (tbl : RespTable) (cid : String) (r : CmdResult)
    (hfound : tbl cid = some r) :
    (dictPop tbl cid).1 = some r ∧
    (dictPop tbl cid).2 cid = none ∧
    (∀ k, k ≠ cid → (dictPop tbl cid).2 k = tbl k) ∧
    (r.success = true → ExtensionBridge.get_active_tab r = .ok r.data) ∧
    (∀ e, r.success = false → r.error = some e →
      ExtensionBridge.get_active_tab r = .error e) := by
  refine ⟨hfound, by simp [dictPop], fun k hk => by simp [dictPop, hk], ?_, ?_⟩
  · intro hs
    simp [ExtensionBridge.get_active_tab, hs]
  · intro e hs he
    simp [ExtensionBridge.get_active_tab, hs, he]

/-- Witness for C7: a table holding a failed result under "c1"; the pop
returns it, removes it, leaves "c2" alone, and decodes to the
executor's error text. -/
theorem C7_single_consumption_witness :
    (dictPop (fun k => if k = "c1" then some ⟨false, "", some "boom"⟩ else none) "c1").1 =
      some ⟨false, "", some "boom"⟩ ∧
    (dictPop (fun k => if k = "c1" then some ⟨false, "", some "boom"⟩ else none) "c1").2 "c1" =
      none ∧
    ExtensionBridge.get_active_tab ⟨false, "", some "boom"⟩ = .error "boom" :=
  ⟨(C7_single_consumption (fun k => if k = "c1" then some ⟨false, "", some "boom"⟩ else none)
      "c1" ⟨false, "", some "boom"⟩ (by simp)).1,
    (C7_single_consumption (fun k => if k = "c1" then some ⟨false, "", some "boom"⟩ else none)
      "c1" ⟨false, "", some "boom"⟩ (by simp)).2.1,
    (C7_single_consumption (fun k => if k = "c1" then some ⟨false, "", some "boom"⟩ else none)
      "c1" ⟨false, "", some "boom"⟩ (by simp)).2.2.2.2 "boom" rfl rfl⟩

/-- Claim C8: `submit-result` always succeeds with the `ok`
acknowledgment, afterwards the table maps the submitted id to the
submitted payload (overwriting any prior entry), all other entries are
unchanged, and submitting twice for the same id leaves the table as if
only the last submission had occurred. -/
theorem C8_submit_result_overwrites (tbl : RespTable) (d : PostData) :
    (post_response tbl d).2 = ⟨"ok"⟩ ∧
    (post_response tbl d).1 d.id = some d.result ∧
    (∀ k, k ≠ d.id → (post_response tbl d).1 k = tbl k) ∧
    (∀ d2 : PostData, d2.id = d.id →
      ∀ k, (post_response (post_response tbl d).1 d2).1 k = (post_response tbl d2).1 k) := by
  refine ⟨rfl, by simp [post_response], fun k hk => by simp [post_response, hk], ?_⟩
  intro d2 hid k
  by_cases hk : k = d2.id
  · simp [post_response, hk]
  · have hk2 : k ≠ d.id := by rw [← hid]; exact hk
    simp [post_response, hk, hk2]

/-- Witness for C8: submitting twice for id "c1" over the empty table —
the acknowledgment is `ok`, the second payload wins, and key "c2"
(distinct from "c1") is untouched. -/
theorem C8_submit_result_overwrites_witness :
    (post_response emptyTable ⟨"c1", ⟨true, "one", none⟩⟩).2 = ⟨"ok"⟩ ∧
    (post_response emptyTable ⟨"c1", ⟨true, "one", none⟩⟩).1 "c1" = some ⟨true, "one", none⟩ ∧
    (post_response emptyTable ⟨"c1", ⟨true, "one", none⟩⟩).1 "c2" = emptyTable "c2" ∧
    (post_response (post_response emptyTable ⟨"c1", ⟨true, "one", none⟩⟩).1
        ⟨"c1", ⟨true, "two", none⟩⟩).1 "c1" =
      (post_response emptyTable ⟨"c1", ⟨true, "two", none⟩⟩).1 "c1" :=
  ⟨(C8_submit_result_overwrites emptyTable ⟨"c1", ⟨true, "one", none⟩⟩).1,
    (C8_submit_result_overwrites emptyTable ⟨"c1", ⟨true, "one", none⟩⟩).2.1,
    (C8_submit_result_overwrites emptyTable ⟨"c1", ⟨true, "one", none⟩⟩).2.2.1 "c2" (by decide),
    (C8_submit_result_overwrites emptyTable ⟨"c1", ⟨true, "one", none⟩⟩).2.2.2
      ⟨"c1", ⟨true, "two", none⟩⟩ rfl "c1"⟩

/-- Claim C10: `submit-result` validates nothing against the pending
queue: for any submitted payload, even one whose id matches no command
ever enqueued, the entry is stored and the server acknowledges with
`ok`. -/
theorem C10_no_validation (tbl : RespTable) (queueHistory : List Command) (d : PostData)
    (_hnever : ∀ c ∈ queueHistory, c.id ≠ d.id) :
    (post_response tbl d).2.status = "ok" ∧
    (post_response tbl d).1 d.id = some d.result := by
  exact ⟨rfl, by simp [post_response]⟩

/-- Witness for C10: a result id "ghost" matching no enqueued command is
stored and acknowledged anyway. -/
theorem C10_no_validation_witness :
    (post_response emptyTable ⟨"ghost", ⟨true, "d", none⟩⟩).2.status = "ok" ∧
    (post_response emptyTable ⟨"ghost", ⟨true, "d", none⟩⟩).1 "ghost" =
      some ⟨true, "d", none⟩ :=
  C10_no_validation emptyTable [⟨"real-id", "cmd", []⟩] ⟨"ghost", ⟨true, "d", none⟩⟩
    (by decide)

/-- Helper for C4: if the awaited id never appears in `response_dict`,
the polling loop started at any tick `n` with `n + m = T + 1` raises
the `TimeoutError` naming the command at tick `T + 1`, the first tick
whose elapsed time strictly exceeds the deadline `T`. -/
theorem waitFrom_never_found (tableAt : Nat → RespTable) (cid cmd : String) (T : Nat)
    (h : ∀ n, tableAt n cid = none) :
    ∀ m n, n + m = T + 1 → waitFrom tableAt cid cmd T n =
      .timeoutErr ("Extension did not respond to " ++ cmd) (T + 1) := by
  intro m
  induction m with
  | zero =>
    intro n hn
    rw [waitFrom, h n]
    simp only
    rw [dif_pos (by omega : n > T)]
    have hnn : n = T + 1 := by omega
    rw [hnn]
  | succ m ih =>
    intro n hn
    rw [waitFrom, h n]
    simp only
    rw [dif_neg (by omega : ¬ n > T)]
    exact ih (n + 1) (by omega)

/-- Claim C4: a `send-command` whose id never receives a result raises
the `TimeoutError` naming the command, at elapsed time strictly
greater than the deadline `T` but no later than one polling tick past
it, and the command was enqueued exactly once (never retried). -/
theorem C4_timeout_fires (uuids : Nat → String) (callIdx : Nat)
    (command_queue : List Command) (tableAt : Nat → RespTable)
    (command : String) (params : List (String × String)) (T : Nat)
    (hnever : ∀ n, tableAt n (uuids callIdx) = none) :
    (ExtensionBridge.send_command uuids callIdx command_queue tableAt command params T).outcome =
      .timeoutErr ("Extension did not respond to " ++ command) (T + 1) ∧
    (∀ msg tick,
      (ExtensionBridge.send_command uuids callIdx command_queue tableAt command params
          T).outcome = .timeoutErr msg tick → T < tick ∧ tick ≤ T + 1) ∧
    (ExtensionBridge.send_command uuids callIdx command_queue tableAt command params
        T).queueAfter = command_queue ++ [⟨uuids callIdx, command, params⟩] := by
  have hout :
      (ExtensionBridge.send_command uuids callIdx command_queue tableAt command params
          T).outcome = .timeoutErr ("Extension did not respond to " ++ command) (T + 1) :=
    waitFrom_never_found tableAt (uuids callIdx) command T hnever (T + 1) 0 (by omega)
  refine ⟨hout, ?_, rfl⟩
  intro msg tick heq
  rw [hout] at heq
  cases heq
  omega

/-- Witness for C4: a table in which no result ever appears; with
timeout 2 the call raises at tick 3 and the command sits exactly once
in the queue. -/
theorem C4_timeout_fires_witness :
    (ExtensionBridge.send_command (fun _ => "u0") 0 [] (fun _ _ => none)
        "get_active_tab" [] 2).outcome =
      .timeoutErr ("Extension did not respond to " ++ "get_active_tab") 3 ∧
    (ExtensionBridge.send_command (fun _ => "u0") 0 [] (fun _ _ => none)
        "get_active_tab" [] 2).queueAfter = [⟨"u0", "get_active_tab", []⟩] :=
  ⟨(C4_timeout_fires (fun _ => "u0") 0 [] (fun _ _ => none) "get_active_tab" [] 2
      (fun _ => rfl)).1,
    (C4_timeout_fires (fun _ => "u0") 0 [] (fun _ _ => none) "get_active_tab" [] 2
      (fun _ => rfl)).2.2⟩

/-- Claim C9: the id drawn by the `k`-th `send-command` call of the
process is token `k` of the uuid stream — a fresh draw per call,
independent of queue, table, timeout and of any earlier call's
failure — and, provided the stream has no collision among the indices
used, the ids of calls `0 .. n-1` are pairwise distinct. -/
theorem C9_ids_pairwise_distinct (uuids : Nat → String) (n : Nat)
    (command_queue : List Command) (tableAt : Nat → RespTable)
    (command : String) (params : List (String × String)) (T : Nat)
    (hinj : ∀ i < n, ∀ j < n, uuids i = uuids j → i = j) :
    (∀ k, (ExtensionBridge.send_command uuids k command_queue tableAt command params
        T).cmd_id = uuids k) ∧
    ((List.range n).map (fun k =>
        (ExtensionBridge.send_command uuids k command_queue tableAt command params
          T).cmd_id)).Pairwise (· ≠ ·) := by
  refine ⟨fun k => rfl, ?_⟩
  have hmap : ((List.range n).map (fun k =>
      (ExtensionBridge.send_command uuids k command_queue tableAt command params
        T).cmd_id)) = (List.range n).map uuids := rfl
  rw [hmap, List.pairwise_map]
  have hlt : (List.range n).Pairwise (· < ·) := List.pairwise_lt_range n
  refine List.Pairwise.imp_of_mem ?_ hlt
  intro a b ha hb hab
  intro hEq
  have haN : a < n := List.mem_range.mp ha
  have hbN : b < n := List.mem_range.mp hb
  have : a = b := hinj a haN b hbN hEq
  omega

/-- Witness for C9: three calls with a collision-free stream of three
tokens — the drawn ids are pairwise distinct. -/
theorem C9_ids_pairwise_distinct_witness :
    ((List.range 3).map (fun k =>
        (ExtensionBridge.send_command
          (fun k => if k = 0 then "a" else if k = 1 then "b" else "c") k []
          (fun _ _ => none) "cmd" [] 1).cmd_id)).Pairwise (· ≠ ·) :=
  (C9_ids_pairwise_distinct (fun k => if k = 0 then "a" else if k = 1 then "b" else "c")
    3 [] (fun _ _ => none) "cmd" [] 1 (by decide)).2

/-- Counterexample to C2 as stated: a connection whose next incoming
frame bears id 999 while the call assigns id 1.  `send_command`
returns that frame (in full) without any reply bearing id 1 having
been received — the code never compares the reply id against the id
it assigned. -/
theorem C2_counterexample :
    CDPClient.send_command ⟨0, [], [⟨999, "stale"⟩], 0⟩ "Page.bringToFront"
        ⟨"", "", none, none, none, none⟩ =
      some (⟨999, "stale"⟩,
        ⟨1, [⟨1, "Page.bringToFront", ⟨"", "", none, none, none, none⟩⟩], [], 0⟩) ∧
    (999 : Nat) ≠ 1 :=
  ⟨rfl, by decide⟩

/-- Amended C2: each call assigns the next sequential id (one greater
than the previous call's, so ids are strictly increasing and unique
per connection), sends `{id, method, params}`, then reads exactly one
frame from the connection and returns it in full without verifying
its id; when the connection delivers the reply to this request as the
next frame (the one-outstanding-request design assumption), that
reply is what is returned. -/
theorem C2_call_amended (cid : Nat) (sent : List CdpFrame) (cc : Nat)
    (method : String) (params : KeyParams) (r : CdpReply) (rest : List CdpReply) :
    CDPClient.send_command ⟨cid, sent, r :: rest, cc⟩ method params =
      some (r, ⟨cid + 1, sent ++ [⟨cid + 1, method, params⟩], rest, cc⟩) :=
  rfl

/-- Counterexample to C3 as stated: for the intent
`{key: "t", literal: "t", code: "KeyT", keycode: 84}` the three
issued sub-events are keyDown, char, keyUp in order, but the char
event carries neither the physical code nor the legacy numeric codes
the intent supplied — only keyDown and keyUp do. -/
theorem C3_counterexample :
    (CDPClient.send_key ⟨0, [], [⟨1, "ok"⟩, ⟨2, "ok"⟩, ⟨3, "ok"⟩], 0⟩ "t" (some "t")
        (some "KeyT") (some 84)).map
      (fun c => c.sent.map (fun f => (f.params.type, f.params.key, f.params.code,
        f.params.windowsVirtualKeyCode, f.params.nativeVirtualKeyCode))) =
      some [("keyDown", "t", some "KeyT", some 84, some 84),
            ("char", "t", none, none, none),
            ("keyUp", "t", some "KeyT", some 84, some 84)] :=
  rfl

/-- Amended C3: with a literal character, `send_key` issues exactly
three requests in strict order keyDown, char, keyUp; without one,
exactly two (keyDown, keyUp, no char event).  Every sub-event carries
the same logical key name; keyDown and keyUp additionally carry the
physical code and legacy numeric codes exactly when the intent
supplies them; the char event carries only the key name and the
literal text. -/
theorem C3_send_key_amended (cid : Nat) (sent : List CdpFrame) (cc : Nat)
    (key t : String) (code : Option String) (kc : Option Nat)
    (r1 r2 r3 : CdpReply) (rest : List CdpReply) :
    CDPClient.send_key ⟨cid, sent, r1 :: r2 :: r3 :: rest, cc⟩ key (some t) code kc =
      some ⟨cid + 3,
        sent ++
          [⟨cid + 1, "Input.dispatchKeyEvent", ⟨"keyDown", key, none, code, kc, kc⟩⟩,
           ⟨cid + 2, "Input.dispatchKeyEvent", ⟨"char", key, some t, none, none, none⟩⟩,
           ⟨cid + 3, "Input.dispatchKeyEvent", ⟨"keyUp", key, none, code, kc, kc⟩⟩],
        rest, cc⟩ ∧
    CDPClient.send_key ⟨cid, sent, r1 :: r2 :: rest, cc⟩ key none code kc =
      some ⟨cid + 2,
        sent ++
          [⟨cid + 1, "Input.dispatchKeyEvent", ⟨"keyDown", key, none, code, kc, kc⟩⟩,
           ⟨cid + 2, "Input.dispatchKeyEvent", ⟨"keyUp", key, none, code, kc, kc⟩⟩],
        rest, cc⟩ := by
  constructor <;> simp [CDPClient.send_key, CDPClient.send_command]

/-- Counterexample to C1 as stated: forcing a failure in the Baseline
query makes `run_test` take the `except`-and-`return` path, on which
`cdp.close()` runs zero times, not once — there is no `try/finally`
around the run. -/
theorem C1_counterexample :
    run_test (.error "extension not loaded") (.ok ⟨"42", "Google"⟩) =
      { outcome := .earlyReturn "extension not loaded", closeCount := 0 } ∧
    (0 : Nat) ≠ 1 :=
  ⟨rfl, by decide⟩

/-- Amended C1: the connection is closed exactly once only on runs
where both the Baseline query and the Verify re-query succeed
(whether the verification then passes or fails); a failure in the
Baseline query, or in the Verify re-query, terminates the run with
the connection never closed. -/
theorem C1_cleanup_amended (b a : Tab) (e : String) (p : Except String Tab) :
    (run_test (.error e) p).closeCount = 0 ∧
    (run_test (.ok b) (.error e)).closeCount = 0 ∧
    (run_test (.ok b) (.ok a)).closeCount = 1 := by
  refine ⟨rfl, rfl, ?_⟩
  by_cases h : b.id = a.id <;> simp [run_test, h]

